/-
Verification of the aisproxy browser keep-alive fleet.

This file gives a shallow embedding, in Lean 4, of the code of the
repository (unified-server.js, lib/processManager.js, the browser-instance
runner and the keep-alive / iframe-helper modules) and proves the
behavioural properties stated about it.

Modelling conventions, applied uniformly:
  * Pure control flow is translated statement by statement from the
    JavaScript source; the revision a definition is taken from is named in
    its doc comment.
  * Calls into the browser-automation driver (Playwright) are modelled by
    environment records: the environment chooses the value each driver
    call returns.  Driver calls whose JavaScript wrapper swallows its own
    exceptions (`try { ... } catch { ... return false }`) are total in the
    model; driver calls that may reject are modelled with `Except`.
  * `page.waitForTimeout` sleeps are modelled as pure no-ops that only
    record an event (time is abstracted away; polling loops bounded by
    wall-clock time take the list of observations made inside the window
    from the environment).
  * JSON values are modelled by the inductive `JsonVal`; JavaScript
    truthiness and `obj.field || default` are modelled by `jsTruthy` and
    `jsGetOr`.  `JSON.stringify` followed by `JSON.parse` is modelled as
    the identity on `JsonVal` after dropping `undefined`-valued fields
    (absent `Option` fields), which is exactly what the composition does
    on JSON-representable objects.
-/
import Mathlib

/-! # JavaScript value model -/

/-- JSON values, as produced by `JSON.parse` and consumed by
`JSON.stringify` in the source.  Numbers are modelled as integers (all
numbers appearing in the repository's payloads are integral). -/
inductive JsonVal where
  | null : JsonVal
  | bool (b : Bool) : JsonVal
  | num (n : Int) : JsonVal
  | str (s : String) : JsonVal
  | arr (elems : List JsonVal) : JsonVal
  | obj (fields : List (String × JsonVal)) : JsonVal

instance : Inhabited JsonVal := ⟨.null⟩

namespace JsonVal

/-- JavaScript property lookup `v.k` on an object: `none` models
`undefined` (absent field, or receiver not an object). -/
def get (v : JsonVal) (k : String) : Option JsonVal :=
  match v with
  | .obj fields => (fields.find? (fun f => f.1 == k)).map (·.2)
  | _ => none

/-- JavaScript truthiness of a JSON value: `null`, `false`, `0` and `""`
are falsy, everything else (including `[]` and `{}`) is truthy. -/
def jsTruthy : JsonVal → Bool
  | .null => false
  | .bool b => b
  | .num n => n != 0
  | .str s => s != ""
  | .arr _ => true
  | .obj _ => true

/-- The `v.k || dflt` in JavaScript: the field if present and truthy,
otherwise the default. -/
def jsGetOr (v : JsonVal) (k : String) (dflt : JsonVal) : JsonVal :=
  match v.get k with
  | some w => if w.jsTruthy then w else dflt
  | none => dflt

/-- The `Array.isArray`. -/
def isArray : JsonVal → Bool
  | .arr _ => true
  | _ => false

end JsonVal

/-- JavaScript `String.prototype.includes`: substring containment. -/
def jsIncludes (s sub : String) : Bool :=
  decide (sub.data <:+: s.data)

/-! # Auth Source Resolver (`unified-server.js`, class `AuthSource`) -/

/-- Environment of the resolver: the candidate indices produced by the
mode's scan (the integers parsed from `AUTH_JSON_<n>` environment keys in
`env` mode, or from `auth-<n>.json` filenames in `file` mode), the
content read for an index (`none` models an unreadable / absent source,
mirroring `_getAuthContent` returning `null`/`undefined`), and an abstract
`JSON.parse` (`none` models a parse failure throwing `SyntaxError`). -/
structure AuthEnv where
  rawIndices : List Nat
  content : Nat → Option String
  parseJson : String → Option JsonVal

/-- Deduplication pass keeping the first occurrence of each element not
already in `seen`, in order. -/
def setDedupAux (seen : List Nat) : List Nat → List Nat
  | [] => []
  | a :: l =>
    if a ∈ seen then setDedupAux seen l
    else a :: setDedupAux (a :: seen) l

/-- The `[...new Set(indices)]`: deduplication keeping the first occurrence of
each element, in insertion order, exactly as a JavaScript `Set` does. -/
def setDedup (l : List Nat) : List Nat :=
  setDedupAux [] l

/-- The `AuthSource._discoverAvailableIndices` (unified-server.js:50-88), after
the mode-specific scan has produced `raw`:
`this.initialIndices = [...new Set(indices)].sort((a, b) => a - b)` —
the deduplicated candidates sorted into ascending numeric order (the
elements are distinct after `setDedup`, so every comparison sort returns
the same list; `insertionSort` is used because it evaluates by
reduction). -/
def discoverAvailableIndices (raw : List Nat) : List Nat :=
  (setDedup raw).insertionSort (· ≤ ·)

/-- The guard `if (authContent)` in `_preValidateAndFilter`: `null`,
`undefined` and the empty string are falsy. -/
def authContentTruthy (c : Option String) : Bool :=
  match c with
  | some s => s != ""
  | none => false

/-- The `AuthSource._preValidateAndFilter` (unified-server.js:90-126): keep an
index exactly when its content is readable (truthy) and parses as JSON;
one bad index is recorded as a rejection and skipped, never aborting the
loop over the others. -/
def preValidateAndFilter (env : AuthEnv) (avail : List Nat) : List Nat :=
  if avail.isEmpty then avail
  else avail.filter (fun i =>
    let c := env.content i
    if authContentTruthy c then
      match c with
      | some s => (env.parseJson s).isSome
      | none => false
    else false)

/-- The rejection descriptions accumulated by `_preValidateAndFilter`
(`invalidSourceDescriptions`), one per excluded index. -/
def preValidateRejections (env : AuthEnv) (avail : List Nat) : List Nat :=
  if avail.isEmpty then []
  else avail.filter (fun i =>
    let c := env.content i
    !(if authContentTruthy c then
        match c with
        | some s => (env.parseJson s).isSome
        | none => false
      else false))

/-- The usable index set after discovery and validation
(`this.availableIndices` at the end of the `AuthSource` constructor). -/
def authSourceUsable (env : AuthEnv) : List Nat :=
  preValidateAndFilter env (discoverAvailableIndices env.rawIndices)

/-- Fatal startup errors (`unified-server.js`). -/
inductive StartupError where
  | noValidAuthSources
  | missingInstanceUrl
deriving DecidableEq

/-- The `AuthSource` constructor (unified-server.js:20-48): discover,
pre-validate, and throw `"No valid authentication sources found."` when
nothing usable remains. -/
def mkAuthSource (env : AuthEnv) : Except StartupError (List Nat) :=
  let avail := authSourceUsable env
  if avail.length = 0 then .error .noValidAuthSources else .ok avail

/-- The filter predicate applied per index by `preValidateAndFilter`:
readable (truthy) content that parses as JSON. -/
def authIndexOk (env : AuthEnv) (i : Nat) : Bool :=
  let c := env.content i
  if authContentTruthy c then
    match c with
    | some s => (env.parseJson s).isSome
    | none => false
  else false

/-! # Server startup and instance configurations (`unified-server.js`) -/

/-- The parent's configuration (`_loadConfiguration`,
unified-server.js:178-201).  `instanceUrl` is `CAMOUFOX_INSTANCE_URL`
(startup throws when it is absent); `proxy` is `CAMOUFOX_PROXY`, which may
be `undefined`. -/
structure ServerConfig where
  instanceUrl : Option String
  headless : Bool
  proxy : Option String
  startDelay : Nat

/-- The `AuthSource.getAuth` (unified-server.js:142-162): `null` for an index
outside the usable list, for unreadable content (`if (!jsonString)`), and
for content that fails to parse. -/
def getAuth (env : AuthEnv) (avail : List Nat) (index : Nat) : Option JsonVal :=
  if !(avail.contains index) then none
  else
    let jsonString := env.content index
    if !(authContentTruthy jsonString) then none
    else match jsonString with
      | some s => env.parseJson s
      | none => none

/-- An `InstanceConfig` as built by the parent
(`_loadInstanceConfigurations`, unified-server.js:203-229).  `proxy` is
`Option` because `CAMOUFOX_PROXY` may be `undefined`. -/
structure InstanceConfigJS where
  instanceUrl : String
  headless : Bool
  proxy : Option String
  authSource : JsonVal

/-- The per-child `authSource` object pushed by
`_loadInstanceConfigurations` (unified-server.js:217-224).  Note that it
carries only `cookies` and `accountName` from the parsed payload
`authData`; in particular no `storageState` field is ever included. -/
def buildChildAuthSource (authMode : String) (index : Nat) (authData : JsonVal) : JsonVal :=
  .obj [
    ("type", .str authMode),
    ("identifier", .str ("AUTH_JSON_" ++ toString index)),
    ("display_name", .str ("AUTH_JSON_" ++ toString index)),
    ("index", .num index),
    ("cookies", authData.jsGetOr "cookies" (.arr [])),
    ("accountName", authData.jsGetOr "accountName" (.str "N/A"))
  ]

/-- The `BrowserAutomationServer._loadInstanceConfigurations`
(unified-server.js:203-229): one config per usable index whose payload can
still be read and parsed; a failing `getAuth` logs and `continue`s. -/
def loadInstanceConfigurations (url : String) (cfg : ServerConfig)
    (authMode : String) (env : AuthEnv) (avail : List Nat) : List InstanceConfigJS :=
  avail.filterMap (fun i =>
    (getAuth env avail i).map (fun authData =>
      { instanceUrl := url
        headless := cfg.headless
        proxy := cfg.proxy
        authSource := buildChildAuthSource authMode i authData }))

/-- The `JSON.stringify(config)` as passed to the spawned child
(`ProcessManager.spawnBrowserInstance`, processManager.js:189-216),
composed with the child's `JSON.parse(args[0])`
(`loadConfigFromArgs`).  On JSON-representable objects the composition is
the identity except that `undefined`-valued fields (here: an unset
`proxy`) are dropped by `JSON.stringify`; the result is the JSON value the
child process sees. -/
def stringifyInstanceConfig (c : InstanceConfigJS) : JsonVal :=
  .obj ([("instanceUrl", JsonVal.str c.instanceUrl), ("headless", JsonVal.bool c.headless)]
    ++ (match c.proxy with
        | some p => [("proxy", JsonVal.str p)]
        | none => [])
    ++ [("authSource", c.authSource)])

/-- The credential payload as reconstructed inside the session process:
the `authSource` property of the deserialized config. -/
def childAuthPayload (c : InstanceConfigJS) : Option JsonVal :=
  (stringifyInstanceConfig c).get "authSource"

/-- Startup of `BrowserAutomationServer` (constructor, lines 168-176, and
`_startBrowserInstances`): `_loadConfiguration` throws when
`CAMOUFOX_INSTANCE_URL` is missing, then the `AuthSource` constructor
throws when no usable source remains; only afterwards are the instance
configurations built and the session processes spawned from them (one
spawn per configuration, staggered).  The returned list is the spawn
plan; an error means no session process is ever spawned. -/
def serverStartup (cfg : ServerConfig) (authMode : String) (auth : AuthEnv) :
    Except StartupError (List InstanceConfigJS) := do
  let url ← match cfg.instanceUrl with
    | some u => Except.ok u
    | none => Except.error StartupError.missingInstanceUrl
  let avail ← mkAuthSource auth
  return loadInstanceConfigurations url cfg authMode auth avail

/-- Number of session processes spawned for a startup outcome: spawning
happens only in `_startBrowserInstances`, which is reached only when the
constructor did not throw. -/
def spawnedSessionCount (r : Except StartupError (List InstanceConfigJS)) : Nat :=
  match r with
  | .error _ => 0
  | .ok l => l.length

/-! # WS status reading (`lib/iframeHelper.js`, identical in part_003)

Driver calls are supplied by a `WsReadEnv`.  Calls whose JavaScript site
swallows rejections (the `.catch(() => false)` on the iframe visibility
check) are plain values; calls that may reject into the enclosing
`try`/`catch` are `Except`. -/

/-- A rejected driver (Playwright) call. -/
inductive DriverErr where
  | err (msg : String)
deriving DecidableEq

/-- One invocation's environment for `getWsStatus`
(iframeHelper.js:48-88). -/
structure WsReadEnv where
  /-- The `iframeLocator.count()` (line 52); may reject. -/
  iframeCount : Except DriverErr Nat
  /-- The `iframeLocator.first().isVisible({...}).catch(() => false)`
  (line 60): its rejection is absorbed on the spot, so it is total. -/
  iframeVisible : Bool
  /-- The `statusElement.isVisible({ timeout: 5000 })` (line 70); may reject
  into the outer catch. -/
  statusVisible : Except DriverErr Bool
  /-- The `statusElement.textContent()` (line 71); `none` in the payload
  models a `null` text. -/
  statusText : Except DriverErr (Option String)

/-- The `try` block of `getWsStatus` (iframeHelper.js:49-86): a rejected
driver call propagates (`.error`), every other branch produces a string.
The final `return 'UNKNOWN'` of the function (line 87) is reached from
every branch that falls through; those branches return `"UNKNOWN"`
directly here.  The text checks mirror
`text && text.toUpperCase().includes('…')` in source order. -/
def getWsStatusBody (env : WsReadEnv) : Except DriverErr String :=
  match env.iframeCount with
  | .error e => .error e
  | .ok iframeCount =>
    if iframeCount = 0 then .ok "UNKNOWN"
    else if !env.iframeVisible then .ok "UNKNOWN"
    else
      match env.statusVisible with
      | .error e => .error e
      | .ok statusVisible =>
        if statusVisible then
          match env.statusText with
          | .error e => .error e
          | .ok text =>
            match text with
            | some t =>
              if jsIncludes t.toUpper "CONNECTED" then .ok "CONNECTED"
              else if jsIncludes t.toUpper "IDLE" then .ok "IDLE"
              else if jsIncludes t.toUpper "CONNECTING" then .ok "CONNECTING"
              else .ok "UNKNOWN"
            | none => .ok "UNKNOWN"
        else .ok "UNKNOWN"

/-- The `getWsStatus` (iframeHelper.js:48-88): the whole body sits inside
`try { ... } catch (e) { ... } return 'UNKNOWN'`, so every rejection is
absorbed into the result `'UNKNOWN'`. -/
def getWsStatus (env : WsReadEnv) : String :=
  match getWsStatusBody env with
  | .ok s => s
  | .error _ => "UNKNOWN"

/-- The four strings `getWsStatus` is documented to produce. -/
def wsStatusValues : List String :=
  ["CONNECTED", "IDLE", "CONNECTING", "UNKNOWN"]

/-! # WS reconnection (`lib/iframeHelper.js`, `reconnectWs`, lines
161-216; part_003:145-200 is the same code with the timeouts inlined)

Each attempt's driver interactions are supplied by a
`ReconnectAttemptEnv`; waiting (`page.waitForTimeout`) is a pure no-op,
and the bounded wall-clock poll of `waitForWsConnected` takes the list of
statuses observed inside its window from the environment.  Since
`dismissInteractionModal`, `clickDisconnect`, `clickConnect` and
`getWsStatus` all swallow their own exceptions, nothing in an attempt
rejects and the per-attempt `catch` (lines 206-211) is unreachable. -/

/-- The `waitForWsConnected` (iframeHelper.js:141-151): polls `getWsStatus`
once a second within a wall-clock window, returning `true` as soon as a
poll reads `'CONNECTED'` and `false` when the window closes.  `polls` is
the sequence of statuses observed inside the window. -/
def waitForWsConnected (polls : List String) : Bool :=
  polls.any (fun st => st == "CONNECTED")

/-- Driver results for one iteration of the retry loop in `reconnectWs`. -/
structure ReconnectAttemptEnv where
  /-- The `clickDisconnect` result (line 170). -/
  disconnectClicked : Bool
  /-- The `getWsStatus` after the disconnect click (line 180, logged only). -/
  statusAfterDisconnect : String
  /-- The `clickConnect` result (line 184). -/
  connectClicked : Bool
  /-- statuses observed by `waitForWsConnected(page, logger, 15)`. -/
  polls : List String
  /-- The `getWsStatus` read after the poll window (line 196 or line 200). -/
  statusAfterWait : String

/-- Log events of `reconnectWs`. -/
inductive ReconnectEvent where
  /-- The `重连成功，WS 状态: st` (line 197) and early return of `st`. -/
  | successLogged (st : String)
  /-- The `第 a 次重连超时，当前状态: st` (line 201). -/
  | timeoutLogged (a : Nat) (st : String)
  /-- The `重连失败，经过 maxRetries 次尝试` (line 214). -/
  | exhaustedLogged
deriving DecidableEq

/-- The `maxRetries = 3`, the default of `reconnectWs` used by the keep-alive
loop (iframeHelper.js:161). -/
def reconnectMaxRetries : Nat := 3

/-- One iteration of the `for` loop in `reconnectWs` (lines 164-212):
`some st` means `return st` (reconnect success path), `none` means the
loop `continue`s to the next attempt. -/
def reconnectAttempt (a maxRetries : Nat) (env : ReconnectAttemptEnv) :
    Option String × List ReconnectEvent :=
  if !env.disconnectClicked && decide (a < maxRetries) then (none, [])
  else if !env.connectClicked && decide (a < maxRetries) then (none, [])
  else if waitForWsConnected env.polls then
    (some env.statusAfterWait, [.successLogged env.statusAfterWait])
  else
    (none, [.timeoutLogged a env.statusAfterWait])

/-- The retry loop of `reconnectWs`, from attempt `a` with
`remaining = maxRetries + 1 - a` iterations left; when the loop ends
without returning, the function logs the failure and returns
`'UNKNOWN'` (lines 214-215). -/
def reconnectFrom (envs : Nat → ReconnectAttemptEnv) (maxRetries : Nat) :
    Nat → Nat → String × List ReconnectEvent
  | 0, _ => ("UNKNOWN", [.exhaustedLogged])
  | remaining + 1, a =>
    match reconnectAttempt a maxRetries (envs a) with
    | (some st, evs) => (st, evs)
    | (none, evs) =>
      let r := reconnectFrom envs maxRetries remaining (a + 1)
      (r.1, evs ++ r.2)

/-- The `reconnectWs(page, logger)` = `reconnectWs(page, logger, 3)`
(iframeHelper.js:161-216). -/
def reconnectWs (envs : Nat → ReconnectAttemptEnv) : String × List ReconnectEvent :=
  reconnectFrom envs reconnectMaxRetries reconnectMaxRetries 1

/-! # Keep-alive loop (`lib/keepAlive.js` and its later revision in
`unnamed/part_001`)

The loop's driver interactions per iteration come from a `KATickEnv`.
`checkPageHealth`, `dismissInteractionModal`, `clickInIframe`,
`getWsStatus`, `reconnectWs`, `diagnosticIframeContent` and
`saveScreenshot` all swallow their own exceptions and are therefore total
here; `page.waitForTimeout` sleeps are pure no-ops.  The only `throw`
reaching the per-iteration `catch` is consequently the explicit
`throw new Error('页面持续不健康…')` of the health-check step, which is
exactly what the source can raise out of its helper layer. -/

/-- The mutable locals of `startKeepAliveLoop`
(keepAlive.js:154-161 / part_001:102-109). -/
structure KAState where
  lastWsStatus : String
  clickCounter : Nat
  consecutiveErrors : Nat
  consecutiveUnhealthyChecks : Nat
deriving DecidableEq

/-- The `const maxConsecutiveErrors = 10` (keepAlive.js:159). -/
def maxConsecutiveErrors : Nat := 10

/-- The `const maxConsecutiveUnhealthyChecks = 3` (keepAlive.js:161). -/
def maxConsecutiveUnhealthyChecks : Nat := 3

/-- Driver results for one iteration of the keep-alive `while` loop. -/
structure KATickEnv where
  /-- The `shouldShutdown()` at the loop head. -/
  shutdownAtTop : Bool
  /-- The `checkPageHealth` result, when the cadence performs a check. -/
  health : Bool
  /-- The `const currentWsStatus = await getWsStatus(page, logger)`
  (keepAlive.js:198 / part_001:149). -/
  wsStatus : String
  /-- The `const recheckStatus = await getWsStatus(page, logger)` after the
  2 s glitch grace wait (part_001:163; unused by the lib revision). -/
  glitchRecheck : String
  /-- The `lastWsStatus = await getWsStatus(page, logger)` directly after
  `reconnectWs` (keepAlive.js:206 / part_001:175, logged then
  overwritten). -/
  postReconnectStatus : String
  /-- whether `shouldShutdown()` turns true during the final 10 × 1 s
  polled wait. -/
  shutdownDuringWait : Bool

/-- Observable actions of one keep-alive iteration. -/
inductive KAEvent where
  | healthChecked (ok : Bool)
  /-- The `throw new Error('页面持续不健康，需要重启浏览器')`. -/
  | unhealthyThrown
  | modalDismissed
  /-- The `clickInIframe` (lib revision only). -/
  | keepAliveClick
  /-- The `diagnosticIframeContent` (part_001 only). -/
  | diagnosticsLogged
  /-- The `saveScreenshot(page, logger, 'iframe-lost')` (part_001 only). -/
  | screenshotSaved
  /-- the 2 s glitch grace wait (part_001:162). -/
  | graceWaited
  /-- The `重新检查后 WS 已恢复，继续保活` and `continue` (part_001:166-168). -/
  | glitchRecovered (st : String)
  /-- The `await reconnectWs(page, logger)`. -/
  | reconnectInvoked
  /-- The `重连后 WS 状态: st` (keepAlive.js:207 / part_001:176). -/
  | postReconnectLogged (st : String)
  /-- the hourly `执行 Cookie 验证...` stub. -/
  | cookieCheckLogged
  /-- the `catch` ran with the counter now at `c`. -/
  | errorCaught (c : Nat)
  /-- the 2000 ms recovery wait before continuing after an error. -/
  | recoveryWaited
deriving DecidableEq

/-- Result of one iteration of the keep-alive loop. -/
inductive KATickOutcome where
  /-- the loop continues with the new state. -/
  | next (s : KAState)
  /-- a shutdown was observed: `return` out of the loop. -/
  | completed
  /-- the `catch` rethrew: the error-budget ceiling was reached. -/
  | failed (s : KAState)
deriving DecidableEq

/-- Whether the health-check step of this iteration throws
(keepAlive.js:172-184 / part_001:120-132, identical in both revisions):
the cadence performs a check, the page is unhealthy, and the incremented
unhealthy counter reaches its ceiling. -/
def healthThrows (s : KAState) (env : KATickEnv) : Bool :=
  s.clickCounter % 30 == 0 && decide (s.clickCounter > 60) && !env.health
    && decide (maxConsecutiveUnhealthyChecks ≤ s.consecutiveUnhealthyChecks + 1)

/-- Shared tail of a successful iteration body (keepAlive.js:213-230 /
part_001:182-199): the hourly cookie-verification stub resets
`clickCounter`, `consecutiveErrors` is reset to 0, then the 10 × 1 s wait
polls the shutdown flag once a second; `.ok none` models the `return`
taken when the flag is set. -/
def kaTickTail (s : KAState) (evs : List KAEvent) (env : KATickEnv) :
    Except KAState (Option KAState) × List KAEvent :=
  if 360 ≤ s.clickCounter then
    if env.shutdownDuringWait then (.ok none, evs ++ [.cookieCheckLogged])
    else
      (.ok (some { s with clickCounter := 0, consecutiveErrors := 0 }),
       evs ++ [.cookieCheckLogged])
  else
    if env.shutdownDuringWait then (.ok none, evs)
    else (.ok (some { s with consecutiveErrors := 0 }), evs)

/-- The health-check step shared by both revisions (keepAlive.js:170-184):
`.error st` models the `throw` with the locals as mutated so far. -/
def kaHealthStep (s : KAState) (env : KATickEnv) :
    Except KAState (KAState × List KAEvent) :=
  if s.clickCounter % 30 == 0 && decide (s.clickCounter > 60) then
    if !env.health then
      if maxConsecutiveUnhealthyChecks ≤ s.consecutiveUnhealthyChecks + 1 then
        .error { s with consecutiveUnhealthyChecks := s.consecutiveUnhealthyChecks + 1 }
      else
        .ok ({ s with consecutiveUnhealthyChecks := s.consecutiveUnhealthyChecks + 1 },
             [.healthChecked false])
    else .ok ({ s with consecutiveUnhealthyChecks := 0 }, [.healthChecked true])
  else .ok (s, [])

/-- Rest of the `try` body in the lib revision after the health check
(keepAlive.js:186-230): dismiss the overlay, keep-alive click,
`clickCounter++`, then the WS-status check — on a change away from
`'CONNECTED'`, call `reconnectWs`, read the status again (logged), and
end with `lastWsStatus = currentWsStatus`. -/
def kaAfterHealthV1 (s : KAState) (env : KATickEnv) (evs : List KAEvent) :
    Except KAState (Option KAState) × List KAEvent :=
  if env.wsStatus != s.lastWsStatus then
    if env.wsStatus != "CONNECTED" then
      kaTickTail { s with clickCounter := s.clickCounter + 1, lastWsStatus := env.wsStatus }
        (evs ++ [.modalDismissed, .keepAliveClick]
          ++ [.reconnectInvoked, .postReconnectLogged env.postReconnectStatus]) env
    else
      kaTickTail { s with clickCounter := s.clickCounter + 1, lastWsStatus := env.wsStatus }
        (evs ++ [.modalDismissed, .keepAliveClick]) env
  else
    kaTickTail { s with clickCounter := s.clickCounter + 1 }
      (evs ++ [.modalDismissed, .keepAliveClick]) env

/-- The `try` body of one iteration of the lib revision's loop
(keepAlive.js:169-230). -/
def kaTryBodyV1 (s : KAState) (env : KATickEnv) :
    Except KAState (Option KAState) × List KAEvent :=
  match kaHealthStep s env with
  | .error st => (.error st, [.healthChecked false, .unhealthyThrown])
  | .ok (s1, evs1) => kaAfterHealthV1 s1 env evs1

/-- The `catch` of the keep-alive loop (keepAlive.js:231-244 /
part_001:200-213, identical): increment `consecutiveErrors`; at the
ceiling, rethrow (ending the loop), otherwise wait 2000 ms and
continue. -/
def kaCatch (st : KAState) (evs : List KAEvent) : KATickOutcome × List KAEvent :=
  if maxConsecutiveErrors ≤ st.consecutiveErrors + 1 then
    (.failed { st with consecutiveErrors := st.consecutiveErrors + 1 },
     evs ++ [.errorCaught (st.consecutiveErrors + 1)])
  else
    (.next { st with consecutiveErrors := st.consecutiveErrors + 1 },
     evs ++ [.errorCaught (st.consecutiveErrors + 1), .recoveryWaited])

/-- One iteration of `startKeepAliveLoop` from `lib/keepAlive.js`
(lines 168-245): the shutdown check at the loop head, the `try` body, and
the `catch`. -/
def kaTickV1 (s : KAState) (env : KATickEnv) : KATickOutcome × List KAEvent :=
  if env.shutdownAtTop then (.completed, [])
  else match kaTryBodyV1 s env with
    | (.error st, evs) => kaCatch st evs
    | (.ok none, evs) => (.completed, evs)
    | (.ok (some s'), evs) => (.next s', evs)

/-- The WS-status check of the part_001 revision (part_001:148-180),
applied to the state `s1` whose `clickCounter` was already incremented:
on a change away from `'CONNECTED'` with the transient-`UNKNOWN` glitch
path — when the status changed from `'CONNECTED'` to `'UNKNOWN'`, capture
diagnostics and a screenshot, wait 2 s, re-read; on recovery to
`'CONNECTED'` set `lastWsStatus` to it and `continue` (skipping the error
reset and the final wait) without reconnecting; otherwise fall through to
the reconnect branch (`reconnectWs`, a logged re-read, then
`lastWsStatus = currentWsStatus`, overwriting the re-read). -/
def kaStatusCheckV2 (s1 : KAState) (evs : List KAEvent) (env : KATickEnv) :
    Except KAState (Option KAState) × List KAEvent :=
  if env.wsStatus != s1.lastWsStatus then
    if env.wsStatus == "UNKNOWN" && s1.lastWsStatus == "CONNECTED" then
      if env.glitchRecheck == "CONNECTED" then
        (.ok (some { s1 with lastWsStatus := env.glitchRecheck }),
         evs ++ [.diagnosticsLogged, .screenshotSaved, .graceWaited]
           ++ [.glitchRecovered env.glitchRecheck])
      else
        kaTickTail { s1 with lastWsStatus := env.wsStatus }
          (evs ++ [.diagnosticsLogged, .screenshotSaved, .graceWaited]
            ++ [.reconnectInvoked, .postReconnectLogged env.postReconnectStatus]) env
    else if env.wsStatus != "CONNECTED" then
      kaTickTail { s1 with lastWsStatus := env.wsStatus }
        (evs ++ [.reconnectInvoked, .postReconnectLogged env.postReconnectStatus]) env
    else kaTickTail { s1 with lastWsStatus := env.wsStatus } evs env
  else kaTickTail s1 evs env

/-- Rest of the `try` body in the part_001 revision after the health
check (part_001:134-199): overlay dismissal, `clickCounter++` (no
keep-alive click any more), the 10-minute diagnostic cadence on the
incremented counter, then the WS-status check. -/
def kaAfterHealthV2 (s : KAState) (env : KATickEnv) (evs : List KAEvent) :
    Except KAState (Option KAState) × List KAEvent :=
  kaStatusCheckV2 { s with clickCounter := s.clickCounter + 1 }
    (if (s.clickCounter + 1) % 60 == 0
     then evs ++ [.modalDismissed] ++ [.diagnosticsLogged]
     else evs ++ [.modalDismissed]) env

/-- The `try` body of one iteration of the part_001 revision's loop
(part_001:117-199). -/
def kaTryBodyV2 (s : KAState) (env : KATickEnv) :
    Except KAState (Option KAState) × List KAEvent :=
  match kaHealthStep s env with
  | .error st => (.error st, [.healthChecked false, .unhealthyThrown])
  | .ok (s1, evs1) => kaAfterHealthV2 s1 env evs1

/-- One iteration of `startKeepAliveLoop` from `unnamed/part_001`
(lines 116-214). -/
def kaTickV2 (s : KAState) (env : KATickEnv) : KATickOutcome × List KAEvent :=
  if env.shutdownAtTop then (.completed, [])
  else match kaTryBodyV2 s env with
    | (.error st, evs) => kaCatch st evs
    | (.ok none, evs) => (.completed, evs)
    | (.ok (some s'), evs) => (.next s', evs)

/-- Result of running the keep-alive loop over a finite trace of
iteration environments. -/
inductive KARunResult where
  /-- the `catch` rethrew: the session runner sees the exception. -/
  | failed (s : KAState)
  /-- a shutdown was observed: the loop returned normally. -/
  | completed
  /-- the trace was exhausted with the loop still live. -/
  | running (s : KAState)
deriving DecidableEq

/-- The `startKeepAliveLoop` of `lib/keepAlive.js`, run over a trace of
iteration environments. -/
def kaRunV1 (s : KAState) : List KATickEnv → KARunResult
  | [] => .running s
  | e :: rest =>
    match kaTickV1 s e with
    | (.completed, _) => .completed
    | (.failed s', _) => .failed s'
    | (.next s', _) => kaRunV1 s' rest

/-- The states the loop's locals pass through along a trace (the state
after each iteration; a failing iteration contributes the state the
`catch` rethrew from, and a shutdown ends the list). -/
def kaStatesV1 (s : KAState) : List KATickEnv → List KAState
  | [] => []
  | e :: rest =>
    match kaTickV1 s e with
    | (.completed, _) => []
    | (.failed s', _) => [s']
    | (.next s', _) => s' :: kaStatesV1 s' rest

/-- The initial state of the loop: `lastWsStatus` is the first
`getWsStatus` read (keepAlive.js:154), all counters start at zero. -/
def initKAState (initialStatus : String) : KAState :=
  { lastWsStatus := initialStatus
    clickCounter := 0
    consecutiveErrors := 0
    consecutiveUnhealthyChecks := 0 }

/-! # Session runner (`unnamed/part_002`, the revision of
`browserInstance.js` with the full post-navigation classification) -/

/-- An error caught by the session runner's `catch`
(part_002:210-216): either a `KeepAliveError` (with its message) or any
other exception. -/
inductive CaughtError where
  | keepAliveErr (msg : String)
  | otherErr (msg : String)
deriving DecidableEq

/-- The `loadCookies` (part_002:31-47): take `authSource.cookies`, fall back
to `authSource.storageState.cookies` when the former is falsy, and return
`[]` unless the result is a (truthy) array. -/
def loadCookies (authSource : JsonVal) : List JsonVal :=
  let cookies := authSource.get "cookies"
  let cookies :=
    if !(match cookies with | some v => v.jsTruthy | none => false)
        && (match authSource.get "storageState" with | some v => v.jsTruthy | none => false)
        && (match (authSource.get "storageState").bind (fun ss => ss.get "cookies") with
            | some v => v.jsTruthy | none => false) then
      (authSource.get "storageState").bind (fun ss => ss.get "cookies")
    else cookies
  match cookies with
  | some (.arr elems) => elems
  | _ => []

/-- Driver environment of one `runBrowserInstance` invocation.  The
launch options, viewport and storage-state handoff to the driver have no
observable effect on the runner's control flow and are not modelled. -/
structure BrowserEnv where
  /-- The `process.platform` (part_002:99). -/
  platform : String
  /-- The `process.env.CAMOUFOX_EXECUTABLE_PATH` (part_002:103). -/
  camoufoxPathFromEnv : Option String
  /-- whether `firefox.launch` / `newContext` / `newPage` rejects
  (caught by the runner's `catch`). -/
  launchFails : Bool
  /-- whether `page.goto(instanceUrl, ...)` resolves (part_002:143). -/
  gotoOk : Bool
  /-- The `page.url()` after navigation (part_002:150). -/
  finalUrl : String
  /-- The `page.title()` (part_002:153); `none` models a rejection, which is
  caught and leaves `pageTitle` as `''`. -/
  titleResult : Option String
  /-- outcome of `startKeepAliveLoop`: `none` when the loop returned
  normally (shutdown), `some e` when it threw `e`. -/
  keepAliveResult : Option CaughtError

/-- What a `runBrowserInstance` invocation did: whether the `Active`
keep-alive loop was entered, and the error (if any) recorded by the
`catch`. -/
structure RunOutcome where
  enteredKeepAlive : Bool
  caught : Option CaughtError
deriving DecidableEq

/-- The `try` block of `runBrowserInstance` (part_002:127-216) together
with its `catch`: every exception thrown inside is caught and logged
(`保活错误` / `浏览器实例错误`), never rethrown.  The four mutually
exclusive post-navigation heuristics (part_002:161-192) are checked in
source order. -/
def runBrowserTryBody (env : BrowserEnv) : RunOutcome :=
  if env.launchFails then { enteredKeepAlive := false, caught := some (.otherErr "launch failed") }
  else if !env.gotoOk then
    { enteredKeepAlive := false, caught := some (.keepAliveErr "无法导航到目标 URL") }
  else
    let finalUrl := env.finalUrl
    let pageTitle := env.titleResult.getD ""
    if jsIncludes finalUrl "accounts.google.com" || jsIncludes finalUrl "ServiceLogin"
        || jsIncludes pageTitle "Sign in" || jsIncludes pageTitle "登录" then
      { enteredKeepAlive := false, caught := some (.keepAliveErr "Cookie 已失效") }
    else if jsIncludes pageTitle "Available regions" || jsIncludes pageTitle "not available"
        || jsIncludes pageTitle "不可用" then
      { enteredKeepAlive := false, caught := some (.keepAliveErr "地区限制") }
    else if jsIncludes pageTitle "403" || jsIncludes pageTitle "Forbidden" then
      { enteredKeepAlive := false, caught := some (.keepAliveErr "IP 风控") }
    else if finalUrl == "about:blank" then
      { enteredKeepAlive := false, caught := some (.keepAliveErr "页面加载失败") }
    else
      { enteredKeepAlive := true, caught := env.keepAliveResult }

/-- The `runBrowserInstance` (part_002:55-244).  `loadCookies` and the
Camoufox executable-path selection run before the `try` block, so an
unsupported platform is the one error that escapes the function
(`Except.error`); an empty cookie list is a plain early `return`. -/
def runBrowserInstance (authSource : JsonVal) (env : BrowserEnv) :
    Except String RunOutcome :=
  if (loadCookies authSource).length = 0 then
    .ok { enteredKeepAlive := false, caught := none }
  else if env.camoufoxPathFromEnv.isNone && env.platform != "linux"
      && env.platform != "win32" then
    .error ("Unsupported operating system: " ++ env.platform)
  else
    .ok (runBrowserTryBody env)

/-! # Restart supervisor (`unnamed/part_002`,
`runBrowserInstanceWithRetry`, lines 272-294, and the process entry at
lines 296-316)

One wrapped Session Runner invocation is an oracle `results : Nat →
Except String Unit`: `results a` is how the `a`-th `await
runBrowserInstance(...)` ends (`.ok` = returned normally, intentional
completion; `.error` = rejected). -/

/-- The `maxRetries = 5` (part_002:272). -/
def maxRestartRetries : Nat := 5

/-- What a `runBrowserInstanceWithRetry` invocation did. -/
structure RetryResult where
  outcome : Except String Unit
  /-- the backoff waits performed, in seconds, in order. -/
  waits : List Nat
  /-- the attempt numbers actually invoked, in order. -/
  calls : List Nat

/-- The `for` loop of `runBrowserInstanceWithRetry` (part_002:275-293)
from attempt `attempt`, with `remaining = maxRetries + 1 - attempt`
iterations left: on success, `break`; on failure below the last attempt,
wait `min(30, 5 * attempt)` seconds and retry; on the last attempt's
failure, rethrow. -/
def retryFrom (results : Nat → Except String Unit) (maxRetries : Nat) :
    Nat → Nat → RetryResult
  | 0, _ => { outcome := .ok (), waits := [], calls := [] }
  | remaining + 1, attempt =>
    match results attempt with
    | .ok _ => { outcome := .ok (), waits := [], calls := [attempt] }
    | .error e =>
      if attempt < maxRetries then
        let r := retryFrom results maxRetries remaining (attempt + 1)
        { outcome := r.outcome
          waits := min 30 (5 * attempt) :: r.waits
          calls := attempt :: r.calls }
      else { outcome := .error e, waits := [], calls := [attempt] }

/-- The `runBrowserInstanceWithRetry(config, shutdownEvent)` with the default
`maxRetries = 5`. -/
def runBrowserInstanceWithRetry (results : Nat → Except String Unit) : RetryResult :=
  retryFrom results maxRestartRetries maxRestartRetries 1

/-- The process exit code of the session process (part_002:312-315):
`runBrowserInstanceWithRetry(...).catch(err => { ...; process.exit(1) })`;
a normal resolution lets the process exit `0`. -/
def mainExitCode (outcome : Except String Unit) : Nat :=
  match outcome with
  | .ok _ => 0
  | .error _ => 1

/-! # Process manager (`lib/processManager.js`) -/

/-- A tracked `ProcessRecord` as `terminateAll` begins:
`killedAtStart` is the process handle's `killed` flag at that moment. -/
structure TrackedProc where
  pid : Nat
  killedAtStart : Bool
deriving DecidableEq

/-- Environment of one `terminateAll` call: platform, which signal sends
throw, which processes are still alive after the 30 s grace wait, and
which `taskkill` invocations fail. -/
structure TerminateEnv where
  platform : String
  sigtermThrows : Nat → Bool
  aliveAfterGrace : Nat → Bool
  taskkillFails : Nat → Bool

/-- The force-kill mechanism used for one surviving process. -/
inductive KillMech where
  /-- The `taskkill /PID pid /T /F` (Windows): `/T` also terminates the
  process's own child processes. -/
  | taskkillTree
  /-- The `info.process.kill('SIGKILL')`: delivered to the direct child
  process only. -/
  | sigkillDirect
deriving DecidableEq

/-- Whether a force-kill mechanism also reaches the target process's own
child processes. -/
def reachesOwnChildren : KillMech → Bool
  | .taskkillTree => true
  | .sigkillDirect => false

/-- Observable actions of `terminateAll`. -/
inductive TermEvent where
  | sigtermSent (pid : Nat)
  /-- The `info.process.kill('SIGTERM')` threw; caught and logged
  (processManager.js:141-143). -/
  | sigtermFailed (pid : Nat)
  | forceKilled (pid : Nat) (mech : KillMech)
deriving DecidableEq

/-- Phase 1 of `terminateAll` (processManager.js:132-144): send SIGTERM
to every tracked, not-yet-killed process, each send in its own
`try`/`catch`. -/
def termPhase1 (procs : List TrackedProc) (env : TerminateEnv) : List TermEvent :=
  procs.filterMap (fun p =>
    if !p.killedAtStart then
      some (if env.sigtermThrows p.pid then TermEvent.sigtermFailed p.pid
            else TermEvent.sigtermSent p.pid)
    else none)

/-- Phase 3 of `terminateAll` (processManager.js:150-174): force-kill
every process still alive after the grace wait — `taskkill /PID pid /T /F`
on Windows, falling back to SIGKILL when `taskkill` itself throws, and
plain SIGKILL on every other platform. -/
def termPhase3 (procs : List TrackedProc) (env : TerminateEnv) : List TermEvent :=
  procs.filterMap (fun p =>
    if env.aliveAfterGrace p.pid then
      some (TermEvent.forceKilled p.pid
        (if env.platform == "win32" then
          (if env.taskkillFails p.pid then KillMech.sigkillDirect else KillMech.taskkillTree)
        else KillMech.sigkillDirect))
    else none)

/-- The `ProcessManager.terminateAll` (processManager.js:123-182): early
return when nothing is tracked; otherwise SIGTERM phase, 30 s grace wait,
force-kill phase, 5 s settle wait, then `this.processes.clear()`
unconditionally.  Returns the remaining tracked records and the events in
order. -/
def terminateAll (procs : List TrackedProc) (env : TerminateEnv) :
    List TrackedProc × List TermEvent :=
  if procs.isEmpty then (procs, [])
  else ([], termPhase1 procs env ++ termPhase3 procs env)

/-- The `ProcessManager.getCount` (processManager.js:90-92) over the tracked
records. -/
def getCount (procs : List TrackedProc) : Nat :=
  procs.length

/-! # Theorems -/

/-! ## Auth Source Resolver: helper lemmas -/

theorem mem_setDedupAux {b : Nat} :
    ∀ (l seen : List Nat), b ∈ setDedupAux seen l ↔ (b ∈ l ∧ b ∉ seen) := by
  intro l
  induction l with
  | nil => simp [setDedupAux]
  | cons a t ih =>
    intro seen
    by_cases hmem : a ∈ seen
    · rw [setDedupAux, if_pos hmem, ih]
      simp only [List.mem_cons]
      constructor
      · rintro ⟨hb, hs⟩
        exact ⟨Or.inr hb, hs⟩
      · rintro ⟨rfl | hb, hs⟩
        · exact absurd hmem hs
        · exact ⟨hb, hs⟩
    · rw [setDedupAux, if_neg hmem]
      simp only [List.mem_cons, ih]
      constructor
      · rintro (rfl | ⟨hb, hs⟩)
        · exact ⟨Or.inl rfl, hmem⟩
        · refine ⟨Or.inr hb, fun hc => hs ?_⟩
          simp [hc]
      · rintro ⟨rfl | hb, hs⟩
        · exact Or.inl rfl
        · by_cases hba : b = a
          · exact Or.inl hba
          · refine Or.inr ⟨hb, fun hc => ?_⟩
            have hc' : b = a ∨ b ∈ seen := by simpa using hc
            rcases hc' with h1 | h2
            · exact hba h1
            · exact hs h2

theorem mem_setDedup {b : Nat} (l : List Nat) : b ∈ setDedup l ↔ b ∈ l := by
  unfold setDedup
  rw [mem_setDedupAux]
  simp

theorem nodup_setDedupAux :
    ∀ (l seen : List Nat), (setDedupAux seen l).Nodup := by
  intro l
  induction l with
  | nil => simp [setDedupAux]
  | cons a t ih =>
    intro seen
    by_cases hmem : a ∈ seen
    · rw [setDedupAux, if_pos hmem]
      exact ih seen
    · rw [setDedupAux, if_neg hmem]
      refine List.nodup_cons.mpr ⟨?_, ih (a :: seen)⟩
      intro hin
      exact ((mem_setDedupAux t (a :: seen)).mp hin).2 (List.mem_cons_self a seen)

theorem nodup_setDedup (l : List Nat) : (setDedup l).Nodup :=
  nodup_setDedupAux l []

theorem discover_sorted (raw : List Nat) :
    (discoverAvailableIndices raw).Sorted (· ≤ ·) := by
  unfold discoverAvailableIndices
  exact List.sorted_insertionSort _ _

theorem discover_nodup (raw : List Nat) :
    (discoverAvailableIndices raw).Nodup := by
  unfold discoverAvailableIndices
  exact ((List.perm_insertionSort _ (setDedup raw)).nodup_iff).mpr (nodup_setDedup raw)

theorem preValidateAndFilter_eq_filter (env : AuthEnv) (avail : List Nat) :
    preValidateAndFilter env avail = avail.filter (authIndexOk env) := by
  unfold preValidateAndFilter authIndexOk
  cases avail with
  | nil => simp
  | cons a l => simp

/-! ## C5 -/

/-- C5: for every non-empty discovered candidate set, the validated
usable-index list is a subset of the discovered indices, sorted ascending
with no duplicates, and an index is kept exactly when its content is
readable and parses as JSON (so exclusion of one index is decided by that
index alone and never aborts validation of the others). -/
theorem validate_output_subset_sorted_nodup (env : AuthEnv)
    (_hne : discoverAvailableIndices env.rawIndices ≠ []) :
    preValidateAndFilter env (discoverAvailableIndices env.rawIndices)
        ⊆ discoverAvailableIndices env.rawIndices
    ∧ (preValidateAndFilter env (discoverAvailableIndices env.rawIndices)).Sorted (· ≤ ·)
    ∧ (preValidateAndFilter env (discoverAvailableIndices env.rawIndices)).Nodup
    ∧ ∀ i, i ∈ preValidateAndFilter env (discoverAvailableIndices env.rawIndices) ↔
        (i ∈ discoverAvailableIndices env.rawIndices ∧ authIndexOk env i = true) := by
  rw [preValidateAndFilter_eq_filter]
  refine ⟨fun x hx => (List.mem_filter.mp hx).1, ?_, ?_, ?_⟩
  · exact List.Pairwise.sublist (List.filter_sublist _) (discover_sorted env.rawIndices)
  · exact (discover_nodup env.rawIndices).filter _
  · intro i
    simp [List.mem_filter]

/-- The concrete resolver environment used by the C5 witness: candidates
`[2, 1, 2]`, only index 1 readable, with content that parses. -/
def authEnvW : AuthEnv :=
  { rawIndices := [2, 1, 2]
    content := fun i => if i == 1 then some "x" else none
    parseJson := fun s => if s == "x" then some (.obj []) else none }

theorem validate_output_subset_sorted_nodup_witness :
    discoverAvailableIndices authEnvW.rawIndices ≠ []
    ∧ (preValidateAndFilter authEnvW (discoverAvailableIndices authEnvW.rawIndices)
        ⊆ discoverAvailableIndices authEnvW.rawIndices
      ∧ (preValidateAndFilter authEnvW (discoverAvailableIndices authEnvW.rawIndices)).Sorted (· ≤ ·)
      ∧ (preValidateAndFilter authEnvW (discoverAvailableIndices authEnvW.rawIndices)).Nodup
      ∧ ∀ i, i ∈ preValidateAndFilter authEnvW (discoverAvailableIndices authEnvW.rawIndices) ↔
          (i ∈ discoverAvailableIndices authEnvW.rawIndices ∧ authIndexOk authEnvW i = true)) :=
  ⟨by decide, validate_output_subset_sorted_nodup authEnvW (by decide)⟩

/-! ## C6 -/

/-- C6: when zero credential sources remain usable after validation,
startup fails fatally with the `AuthDiscoveryFailure` throw of the
`AuthSource` constructor and no session process is spawned; whenever at
least one usable source remains, startup does not fail for this reason. -/
theorem empty_usable_set_fails_startup (cfg : ServerConfig) (authMode : String)
    (env : AuthEnv) (url : String) (hurl : cfg.instanceUrl = some url) :
    (authSourceUsable env = [] →
      serverStartup cfg authMode env = .error .noValidAuthSources
      ∧ spawnedSessionCount (serverStartup cfg authMode env) = 0)
    ∧ (authSourceUsable env ≠ [] →
      (serverStartup cfg authMode env).isOk = true) := by
  constructor
  · intro h
    have : serverStartup cfg authMode env = .error .noValidAuthSources := by
      simp [serverStartup, hurl, mkAuthSource, h, bind, Except.bind]
    exact ⟨this, by rw [this]; rfl⟩
  · intro h
    have hlen : (authSourceUsable env).length ≠ 0 := by
      simpa [List.length_eq_zero] using h
    simp [serverStartup, hurl, mkAuthSource, hlen, bind, Except.bind, pure,
      Except.pure, Except.isOk, Except.toBool]

/-- Concrete parent configuration for the C6 witness. -/
def serverCfgW : ServerConfig :=
  { instanceUrl := some "https://aistudio.google.com/apps"
    headless := true
    proxy := none
    startDelay := 30 }

/-- An environment with no candidate sources at all. -/
def authEnvEmptyW : AuthEnv :=
  { rawIndices := []
    content := fun _ => none
    parseJson := fun _ => none }

theorem empty_usable_set_fails_startup_witness :
    (authSourceUsable authEnvEmptyW = []
      ∧ serverStartup serverCfgW "file" authEnvEmptyW = .error .noValidAuthSources
      ∧ spawnedSessionCount (serverStartup serverCfgW "file" authEnvEmptyW) = 0)
    ∧ (authSourceUsable authEnvW ≠ []
      ∧ (serverStartup serverCfgW "env" authEnvW).isOk = true) := by
  refine ⟨⟨by decide, ?_⟩, ⟨by decide, ?_⟩⟩
  · exact (empty_usable_set_fails_startup serverCfgW "file" authEnvEmptyW
      "https://aistudio.google.com/apps" rfl).1 (by decide)
  · exact (empty_usable_set_fails_startup serverCfgW "env" authEnvW
      "https://aistudio.google.com/apps" rfl).2 (by decide)

/-! ## C10 -/

theorem getWsStatusBody_ok_mem {env : WsReadEnv} {s : String}
    (h : getWsStatusBody env = .ok s) : s ∈ wsStatusValues := by
  unfold getWsStatusBody at h
  repeat' split at h
  all_goals
    first
    | (obtain rfl := Except.ok.inj h; simp [wsStatusValues])
    | simp_all

/-- C10: `getWsStatus` is total — whatever the page state or internal
failure mode (iframe missing, iframe invisible, status element invisible,
unparseable status text, or any rejected driver call), it returns exactly
one of the four strings, and every failing branch of its body is absorbed
into the result `'UNKNOWN'`, so a failed status read never raises into
the keep-alive loop. -/
theorem getWsStatus_total (env : WsReadEnv) :
    getWsStatus env ∈ wsStatusValues
    ∧ ((getWsStatusBody env).isOk = false → getWsStatus env = "UNKNOWN") := by
  constructor
  · unfold getWsStatus
    rcases h : getWsStatusBody env with e | s
    · simp [wsStatusValues]
    · exact getWsStatusBody_ok_mem h
  · intro h
    unfold getWsStatus
    rcases hb : getWsStatusBody env with e | s
    · rfl
    · rw [hb] at h
      simp [Except.isOk, Except.toBool] at h

/-- The driver environment used by the C10 witness: the very first driver
call rejects. -/
def wsEnvW : WsReadEnv :=
  { iframeCount := .error (.err "Target closed")
    iframeVisible := false
    statusVisible := .ok false
    statusText := .ok none }

theorem getWsStatus_total_witness :
    (getWsStatusBody wsEnvW).isOk = false
    ∧ getWsStatus wsEnvW ∈ wsStatusValues
    ∧ getWsStatus wsEnvW = "UNKNOWN" :=
  ⟨rfl, (getWsStatus_total wsEnvW).1, (getWsStatus_total wsEnvW).2 rfl⟩

/-! ## C8 -/

/-- C8: the per-session restart supervisor retries a Session Runner
invocation only when it ends in `Failed` (a rejected invocation; never
after a normal `Completed` return, which `break`s the loop), waits
`min(30, 5 * attempt)` seconds before the next attempt, stops after 5
attempts, and when all 5 attempts fail the last failure propagates and
the session process exits with status 1. -/
theorem restart_supervisor_policy (results : Nat → Except String Unit) :
    (∀ k, k < maxRestartRetries →
      (∀ a, 1 ≤ a → a ≤ k → (results a).isOk = false) →
      (results (k + 1)).isOk = true →
      runBrowserInstanceWithRetry results =
        { outcome := .ok ()
          waits := (List.range k).map (fun j => min 30 (5 * (j + 1)))
          calls := (List.range (k + 1)).map (fun j => j + 1) })
    ∧ ((∀ a, 1 ≤ a → a ≤ maxRestartRetries → (results a).isOk = false) →
      (runBrowserInstanceWithRetry results).outcome = results maxRestartRetries
      ∧ ((runBrowserInstanceWithRetry results).outcome).isOk = false
      ∧ (runBrowserInstanceWithRetry results).calls
          = (List.range maxRestartRetries).map (fun j => j + 1)
      ∧ (runBrowserInstanceWithRetry results).waits
          = (List.range (maxRestartRetries - 1)).map (fun j => min 30 (5 * (j + 1)))
      ∧ mainExitCode (runBrowserInstanceWithRetry results).outcome = 1) := by
  have herr : ∀ a, (results a).isOk = false → ∃ e, results a = .error e := by
    intro a h
    rcases ha : results a with e | u
    · exact ⟨e, rfl⟩
    · rw [ha] at h; simp [Except.isOk, Except.toBool] at h
  have hok : ∀ a, (results a).isOk = true → results a = .ok () := by
    intro a h
    rcases ha : results a with e | u
    · rw [ha] at h; simp [Except.isOk, Except.toBool] at h
    · cases u; rfl
  constructor
  · intro k hk hfail hsucc
    have hk5 : k < 5 := hk
    interval_cases k
    · have h1 := hok 1 hsucc
      simp [runBrowserInstanceWithRetry, maxRestartRetries, retryFrom, h1]
      decide
    · obtain ⟨e1, h1⟩ := herr 1 (hfail 1 (by omega) (by omega))
      have h2 := hok 2 hsucc
      simp [runBrowserInstanceWithRetry, maxRestartRetries, retryFrom, h1, h2,
        List.range_succ]
    · obtain ⟨e1, h1⟩ := herr 1 (hfail 1 (by omega) (by omega))
      obtain ⟨e2, h2⟩ := herr 2 (hfail 2 (by omega) (by omega))
      have h3 := hok 3 hsucc
      simp [runBrowserInstanceWithRetry, maxRestartRetries, retryFrom, h1, h2, h3,
        List.range_succ]
    · obtain ⟨e1, h1⟩ := herr 1 (hfail 1 (by omega) (by omega))
      obtain ⟨e2, h2⟩ := herr 2 (hfail 2 (by omega) (by omega))
      obtain ⟨e3, h3⟩ := herr 3 (hfail 3 (by omega) (by omega))
      have h4 := hok 4 hsucc
      simp [runBrowserInstanceWithRetry, maxRestartRetries, retryFrom, h1, h2, h3, h4,
        List.range_succ]
    · obtain ⟨e1, h1⟩ := herr 1 (hfail 1 (by omega) (by omega))
      obtain ⟨e2, h2⟩ := herr 2 (hfail 2 (by omega) (by omega))
      obtain ⟨e3, h3⟩ := herr 3 (hfail 3 (by omega) (by omega))
      obtain ⟨e4, h4⟩ := herr 4 (hfail 4 (by omega) (by omega))
      have h5 := hok 5 hsucc
      simp [runBrowserInstanceWithRetry, maxRestartRetries, retryFrom, h1, h2, h3, h4, h5,
        List.range_succ]
  · intro hfail
    obtain ⟨e1, h1⟩ := herr 1 (hfail 1 (by omega) (by simp [maxRestartRetries]))
    obtain ⟨e2, h2⟩ := herr 2 (hfail 2 (by omega) (by simp [maxRestartRetries]))
    obtain ⟨e3, h3⟩ := herr 3 (hfail 3 (by omega) (by simp [maxRestartRetries]))
    obtain ⟨e4, h4⟩ := herr 4 (hfail 4 (by omega) (by simp [maxRestartRetries]))
    obtain ⟨e5, h5⟩ := herr 5 (hfail 5 (by omega) (by simp [maxRestartRetries]))
    refine ⟨?_, ?_, ?_, ?_, ?_⟩ <;>
      simp [runBrowserInstanceWithRetry, maxRestartRetries, retryFrom, mainExitCode,
        h1, h2, h3, h4, h5, List.range_succ, Except.isOk, Except.toBool]

/-- The runner-outcome oracle used by the C8 witness: the first attempt
fails, every later one completes. -/
def retryResultsW : Nat → Except String Unit :=
  fun a => if a == 1 then .error "browser crashed" else .ok ()

theorem restart_supervisor_policy_witness :
    1 < maxRestartRetries
    ∧ (retryResultsW 2).isOk = true
    ∧ runBrowserInstanceWithRetry retryResultsW =
        { outcome := .ok ()
          waits := (List.range 1).map (fun j => min 30 (5 * (j + 1)))
          calls := (List.range 2).map (fun j => j + 1) } :=
  ⟨by simp [maxRestartRetries], rfl,
    (restart_supervisor_policy retryResultsW).1 1 (by simp [maxRestartRetries])
      (fun a h1 h2 => by
        have : a = 1 := Nat.le_antisymm h2 h1
        subst this; rfl)
      rfl⟩

/-! ## C7 -/

/-- Whether a termination event belongs to the graceful (SIGTERM)
phase. -/
def isGracefulEvent : TermEvent → Bool
  | .sigtermSent _ => true
  | .sigtermFailed _ => true
  | .forceKilled _ _ => false

/-- C7, amended: `terminateAll` always ends with zero tracked records,
regardless of individual signalling or kill failures, and proceeds in two
phases in order — first a SIGTERM to every tracked live process, then a
force-kill of exactly the processes still alive after the grace wait.
The force-kill mechanism is `taskkill /T /F` (which also reaches the
process's own children) only on Windows when `taskkill` itself does not
fail; on every other platform (and on the Windows fallback) it is a plain
`SIGKILL` to the direct child process, which does not reach that
process's children. -/
theorem terminateAll_two_phase (procs : List TrackedProc) (env : TerminateEnv) :
    getCount (terminateAll procs env).1 = 0
    ∧ (terminateAll procs env).2 = termPhase1 procs env ++ termPhase3 procs env
    ∧ (∀ e ∈ termPhase1 procs env, isGracefulEvent e = true)
    ∧ (∀ e ∈ termPhase3 procs env, isGracefulEvent e = false)
    ∧ (∀ p ∈ procs, p.killedAtStart = false →
        TermEvent.sigtermSent p.pid ∈ termPhase1 procs env
        ∨ TermEvent.sigtermFailed p.pid ∈ termPhase1 procs env)
    ∧ (∀ pid mech, TermEvent.forceKilled pid mech ∈ termPhase3 procs env →
        env.aliveAfterGrace pid = true
        ∧ mech = (if env.platform == "win32" && !(env.taskkillFails pid)
                  then KillMech.taskkillTree else KillMech.sigkillDirect)) := by
  refine ⟨?_, ?_, ?_, ?_, ?_, ?_⟩
  · unfold terminateAll getCount
    split <;> simp_all [List.isEmpty_iff]
  · unfold terminateAll
    split
    · have hp : procs = [] := by simp_all [List.isEmpty_iff]
      subst hp
      simp [termPhase1, termPhase3]
    · rfl
  · intro e he
    unfold termPhase1 at he
    obtain ⟨p, _, hp⟩ := List.mem_filterMap.mp he
    split at hp
    · obtain rfl := Option.some.inj hp
      split <;> rfl
    · exact absurd hp (by simp)
  · intro e he
    unfold termPhase3 at he
    obtain ⟨p, _, hp⟩ := List.mem_filterMap.mp he
    split at hp
    · obtain rfl := Option.some.inj hp
      rfl
    · exact absurd hp (by simp)
  · intro p hp hk
    unfold termPhase1
    by_cases hs : env.sigtermThrows p.pid
    · right
      exact List.mem_filterMap.mpr ⟨p, hp, by simp [hk, hs]⟩
    · left
      exact List.mem_filterMap.mpr ⟨p, hp, by simp [hk, hs]⟩
  · intro pid mech hmem
    unfold termPhase3 at hmem
    obtain ⟨p, _, hp⟩ := List.mem_filterMap.mp hmem
    by_cases ha : env.aliveAfterGrace p.pid
    · rw [if_pos ha] at hp
      obtain heq := Option.some.inj hp
      cases heq
      refine ⟨ha, ?_⟩
      by_cases hw : env.platform == "win32"
      · by_cases ht : env.taskkillFails p.pid <;> simp [hw, ht]
      · simp [hw]
    · rw [if_neg ha] at hp
      exact absurd hp (by simp)

/-- Tracked processes for the C7 witness and counterexample: one live
process. -/
def procsW : List TrackedProc := [{ pid := 100, killedAtStart := false }]

/-- A Linux shutdown in which the process ignores SIGTERM and survives
the grace period. -/
def termEnvLinux : TerminateEnv :=
  { platform := "linux"
    sigtermThrows := fun _ => false
    aliveAfterGrace := fun _ => true
    taskkillFails := fun _ => false }

theorem terminateAll_two_phase_witness :
    getCount (terminateAll procsW termEnvLinux).1 = 0
    ∧ (terminateAll procsW termEnvLinux).2
        = termPhase1 procsW termEnvLinux ++ termPhase3 procsW termEnvLinux
    ∧ (TermEvent.sigtermSent 100 ∈ termPhase1 procsW termEnvLinux
        ∨ TermEvent.sigtermFailed 100 ∈ termPhase1 procsW termEnvLinux)
    ∧ (termEnvLinux.aliveAfterGrace 100 = true
        ∧ KillMech.sigkillDirect
            = (if termEnvLinux.platform == "win32" && !(termEnvLinux.taskkillFails 100)
               then KillMech.taskkillTree else KillMech.sigkillDirect)) :=
  ⟨(terminateAll_two_phase procsW termEnvLinux).1,
   (terminateAll_two_phase procsW termEnvLinux).2.1,
   (terminateAll_two_phase procsW termEnvLinux).2.2.2.2.1
     { pid := 100, killedAtStart := false } (by decide) rfl,
   (terminateAll_two_phase procsW termEnvLinux).2.2.2.2.2 100 KillMech.sigkillDirect
     (by decide)⟩

/-- C7, counterexample to the claim as stated: on a non-Windows platform
a process that survives the grace period is force-killed with a plain
`SIGKILL` to the direct child, a mechanism that does not reach that
process's own children — so the force-kill phase does not always use a
child-reaching mechanism. -/
theorem terminateAll_forceKill_misses_children :
    TermEvent.forceKilled 100 KillMech.sigkillDirect ∈ (terminateAll procsW termEnvLinux).2
    ∧ reachesOwnChildren KillMech.sigkillDirect = false := by
  decide

/-! ## C9 -/

/-- The parsed credential payload of the C9 failing input: a source with
`cookies`, `accountName` and a `storageState` (the schema of the
`AUTH_JSON_<n>` payloads documented in the repository README). -/
def authDataC9 : JsonVal :=
  .obj [("cookies", .arr [.obj [("name", .str "sid"), ("value", .str "v")]]),
        ("accountName", .str "acct"),
        ("storageState",
          .obj [("cookies", .arr [.obj [("name", .str "sid"), ("value", .str "v")]]),
                ("origins", .arr [])])]

/-- The `InstanceConfig` the parent builds from that payload
(`_loadInstanceConfigurations` with the standard configuration). -/
def configC9 : InstanceConfigJS :=
  { instanceUrl := "https://aistudio.google.com/apps"
    headless := true
    proxy := none
    authSource := buildChildAuthSource "env" 1 authDataC9 }

/-- C9 (code bug): serializing the spawned config and deserializing it in
the session process hands the child exactly the `authSource` object the
parent built — but that object never carries the payload's
`storageState` field (`_loadInstanceConfigurations` copies only `cookies`
and `accountName`), so the reconstructed payload is not identical to the
original: `storageState` is dropped end to end, although the child's
`runBrowserInstance` (part_002:132) and the repository's own FIXES.md
expect it to be forwarded. -/
theorem storageState_dropped_in_spawn_roundtrip :
    childAuthPayload configC9 = some (buildChildAuthSource "env" 1 authDataC9)
    ∧ authDataC9.get "storageState"
        = some (.obj [("cookies", .arr [.obj [("name", .str "sid"), ("value", .str "v")]]),
                      ("origins", .arr [])])
    ∧ (buildChildAuthSource "env" 1 authDataC9).get "storageState" = none
    ∧ childAuthPayload configC9 ≠ some authDataC9 := by
  refine ⟨rfl, rfl, rfl, ?_⟩
  intro h
  have h2 : buildChildAuthSource "env" 1 authDataC9 = authDataC9 := by
    have := Option.some.inj (by
      calc some (buildChildAuthSource "env" 1 authDataC9)
          = childAuthPayload configC9 := rfl
        _ = some authDataC9 := h)
    exact this
  have h3 : (buildChildAuthSource "env" 1 authDataC9).get "storageState"
      = authDataC9.get "storageState" := congrArg (fun v => v.get "storageState") h2
  rw [show (buildChildAuthSource "env" 1 authDataC9).get "storageState" = none from rfl] at h3
  rw [show authDataC9.get "storageState"
      = some (.obj [("cookies", .arr [.obj [("name", .str "sid"), ("value", .str "v")]]),
                    ("origins", .arr [])]) from rfl] at h3
  exact Option.noConfusion h3

/-! ## C4 -/

/-- The identity-provider heuristic of part_002:162-167: final URL on the
Google login surface, or a title signalling sign-in. -/
def credentialExpiredHeuristic (finalUrl pageTitle : String) : Bool :=
  jsIncludes finalUrl "accounts.google.com" || jsIncludes finalUrl "ServiceLogin"
    || jsIncludes pageTitle "Sign in" || jsIncludes pageTitle "登录"

/-- C4: every session whose post-navigation final URL or page title
matches the identity-provider heuristic fails with the recorded
`KeepAliveError('Cookie 已失效')` (`CredentialExpired`) and never enters
the `Active` keep-alive loop.  The hypotheses state that the run reaches
the post-navigation classification: a non-empty cookie payload, a
supported platform, a successful launch and a resolved navigation. -/
theorem credential_expired_never_active (authSource : JsonVal) (env : BrowserEnv)
    (hck : (loadCookies authSource).length ≠ 0)
    (hplat : (env.camoufoxPathFromEnv.isNone && env.platform != "linux"
        && env.platform != "win32") = false)
    (hlaunch : env.launchFails = false)
    (hgoto : env.gotoOk = true)
    (hmatch : credentialExpiredHeuristic env.finalUrl (env.titleResult.getD "") = true) :
    runBrowserInstance authSource env =
      .ok { enteredKeepAlive := false, caught := some (.keepAliveErr "Cookie 已失效") } := by
  unfold runBrowserInstance runBrowserTryBody
  unfold credentialExpiredHeuristic at hmatch
  simp [hck, hplat, hlaunch, hgoto, hmatch]

/-- The child-side auth payload used by the C4 witness: a single
cookie. -/
def authSourceC4 : JsonVal :=
  .obj [("cookies", .arr [.obj [("name", .str "sid"), ("value", .str "v")]])]

/-- The driver environment used by the C4 witness: navigation lands on
the Google sign-in page. -/
def browserEnvC4 : BrowserEnv :=
  { platform := "linux"
    camoufoxPathFromEnv := none
    launchFails := false
    gotoOk := true
    finalUrl := "https://accounts.google.com/v3/signin/identifier"
    titleResult := some "Sign in - Google Accounts"
    keepAliveResult := none }

theorem credential_expired_never_active_witness :
    (loadCookies authSourceC4).length ≠ 0
    ∧ credentialExpiredHeuristic browserEnvC4.finalUrl (browserEnvC4.titleResult.getD "") = true
    ∧ runBrowserInstance authSourceC4 browserEnvC4 =
        .ok { enteredKeepAlive := false, caught := some (.keepAliveErr "Cookie 已失效") } :=
  ⟨by decide, by decide,
    credential_expired_never_active authSourceC4 browserEnvC4 (by decide) (by decide)
      rfl rfl (by decide)⟩

/-! ## Keep-alive loop: helper lemmas -/

theorem kaHealthStep_error {s : KAState} {env : KATickEnv} {st : KAState}
    (h : kaHealthStep s env = .error st) :
    st.consecutiveErrors = s.consecutiveErrors := by
  unfold kaHealthStep at h
  repeat' split at h
  · simp only [Except.error.injEq] at h
    subst h
    rfl
  all_goals simp_all

/-- When the health-check step does not throw, it succeeds, changing at
most the unhealthy counter and logging at most one health event. -/
theorem kaHealthStep_no_throw {s : KAState} {env : KATickEnv}
    (hht : healthThrows s env = false) :
    ∃ s1 evs1, kaHealthStep s env = .ok (s1, evs1)
      ∧ s1.lastWsStatus = s.lastWsStatus
      ∧ s1.clickCounter = s.clickCounter
      ∧ s1.consecutiveErrors = s.consecutiveErrors
      ∧ (evs1 = [] ∨ evs1 = [KAEvent.healthChecked false]
          ∨ evs1 = [KAEvent.healthChecked true]) := by
  unfold healthThrows at hht
  unfold kaHealthStep
  split
  · split
    · split
      · exact absurd hht (by simp_all)
      · exact ⟨_, _, rfl, rfl, rfl, rfl, Or.inr (Or.inl rfl)⟩
    · exact ⟨_, _, rfl, rfl, rfl, rfl, Or.inr (Or.inr rfl)⟩
  · exact ⟨_, _, rfl, rfl, rfl, rfl, Or.inl rfl⟩

theorem kaTickTail_ne_error {s : KAState} {evs : List KAEvent} {env : KATickEnv}
    {st : KAState} {evs' : List KAEvent}
    (h : kaTickTail s evs env = (.error st, evs')) : False := by
  unfold kaTickTail at h
  repeat' split at h
  all_goals simp_all

theorem kaTickTail_ok {s : KAState} {evs : List KAEvent} {env : KATickEnv}
    {s' : KAState} {evs' : List KAEvent}
    (h : kaTickTail s evs env = (.ok (some s'), evs')) :
    s'.consecutiveErrors = 0 := by
  unfold kaTickTail at h
  repeat' split at h
  all_goals
    first
    | (simp only [Prod.mk.injEq, Except.ok.injEq, Option.some.injEq] at h
       obtain ⟨rfl, -⟩ := h
       rfl)
    | simp at h

/-- When the final wait is not interrupted by a shutdown, the tail
completes with the loop continuing: the WS status is untouched, the
error counter is reset to zero, and every event recorded so far is
kept. -/
theorem kaTickTail_next (s : KAState) (evs : List KAEvent) (env : KATickEnv)
    (hsw : env.shutdownDuringWait = false) :
    ∃ s' evs', kaTickTail s evs env = (.ok (some s'), evs')
      ∧ s'.lastWsStatus = s.lastWsStatus
      ∧ s'.consecutiveErrors = 0
      ∧ ∀ e, e ∈ evs → e ∈ evs' := by
  by_cases h360 : 360 ≤ s.clickCounter
  · refine ⟨{ s with clickCounter := 0, consecutiveErrors := 0 },
      evs ++ [KAEvent.cookieCheckLogged], ?_, rfl, rfl,
      fun e he => List.mem_append_left _ he⟩
    unfold kaTickTail
    rw [if_pos h360, hsw]
    rfl
  · refine ⟨{ s with consecutiveErrors := 0 }, evs, ?_, rfl, rfl, fun e he => he⟩
    unfold kaTickTail
    rw [if_neg h360, hsw]
    rfl

theorem kaAfterHealthV1_ne_error {s : KAState} {env : KATickEnv} {evs : List KAEvent}
    {st : KAState} {evs' : List KAEvent}
    (h : kaAfterHealthV1 s env evs = (.error st, evs')) : False := by
  unfold kaAfterHealthV1 at h
  repeat' split at h
  all_goals exact kaTickTail_ne_error h

theorem kaAfterHealthV1_ok {s : KAState} {env : KATickEnv} {evs : List KAEvent}
    {s' : KAState} {evs' : List KAEvent}
    (h : kaAfterHealthV1 s env evs = (.ok (some s'), evs')) :
    s'.consecutiveErrors = 0 := by
  unfold kaAfterHealthV1 at h
  repeat' split at h
  all_goals exact kaTickTail_ok h

theorem kaTryBodyV1_error {s : KAState} {env : KATickEnv} {st : KAState}
    {evs : List KAEvent}
    (h : kaTryBodyV1 s env = (.error st, evs)) :
    st.consecutiveErrors = s.consecutiveErrors := by
  unfold kaTryBodyV1 at h
  split at h
  · rename_i st0 heq
    simp only [Prod.mk.injEq, Except.error.injEq] at h
    obtain ⟨rfl, -⟩ := h
    exact kaHealthStep_error heq
  · exact absurd h (fun hc => kaAfterHealthV1_ne_error hc)

theorem kaTickV1_failed {s : KAState} {env : KATickEnv} {s' : KAState}
    {evs : List KAEvent}
    (h : kaTickV1 s env = (.failed s', evs)) :
    s'.consecutiveErrors = s.consecutiveErrors + 1
    ∧ maxConsecutiveErrors ≤ s'.consecutiveErrors := by
  unfold kaTickV1 at h
  split at h
  · simp at h
  · split at h
    · rename_i st evsb heq
      unfold kaCatch at h
      split at h
      · rename_i hceil
        simp only [Prod.mk.injEq] at h
        obtain ⟨h1, -⟩ := h
        obtain rfl := KATickOutcome.failed.inj h1
        have hst := kaTryBodyV1_error heq
        refine ⟨by simp [hst], ?_⟩
        simp only [maxConsecutiveErrors] at hceil ⊢
        simp [hst] at hceil ⊢
        omega
      · simp at h
    · simp at h
    · simp at h

theorem kaTickV1_next {s : KAState} {env : KATickEnv} {s' : KAState}
    {evs : List KAEvent}
    (h : kaTickV1 s env = (.next s', evs)) :
    s'.consecutiveErrors = 0
    ∨ (s'.consecutiveErrors = s.consecutiveErrors + 1
        ∧ s'.consecutiveErrors < maxConsecutiveErrors) := by
  unfold kaTickV1 at h
  split at h
  · simp at h
  · split at h
    · rename_i st evsb heq
      unfold kaCatch at h
      split at h
      · simp at h
      · rename_i hceil
        simp only [Prod.mk.injEq] at h
        obtain ⟨h1, -⟩ := h
        obtain rfl := KATickOutcome.next.inj h1
        have hst := kaTryBodyV1_error heq
        right
        refine ⟨by simp [hst], ?_⟩
        simp only [maxConsecutiveErrors] at hceil ⊢
        simp [hst] at hceil ⊢
        omega
    · simp at h
    · rename_i s1 evsb heq
      simp only [Prod.mk.injEq] at h
      obtain ⟨h1, -⟩ := h
      obtain rfl := KATickOutcome.next.inj h1
      left
      unfold kaTryBodyV1 at heq
      split at heq
      · simp at heq
      · exact kaAfterHealthV1_ok heq

/-! ## C1 -/

/-- C1: the keep-alive loop of `lib/keepAlive.js` ends in `Failed`
exactly when the `consecutiveErrors` counter reaches the ceiling
`maxConsecutiveErrors = 10` at some point of the execution.  In
particular, reaching the ceiling makes the `catch` rethrow and the
session fail, while in every execution whose counter stays below the
ceiling — each successful iteration resets it to zero, so failures
interspersed with successes stay below it — the loop never fails because
of loop errors (and loop errors are its only failure mode). -/
theorem keepAlive_error_budget (s0 : KAState) (trace : List KATickEnv) :
    (∃ s', kaRunV1 s0 trace = .failed s') ↔
    (∃ s' ∈ kaStatesV1 s0 trace, maxConsecutiveErrors ≤ s'.consecutiveErrors) := by
  induction trace generalizing s0 with
  | nil => simp [kaRunV1, kaStatesV1]
  | cons e rest ih =>
    rcases ho : kaTickV1 s0 e with ⟨o, evs⟩
    cases o with
    | completed =>
      simp [kaRunV1, kaStatesV1, ho]
    | failed s1 =>
      simp only [kaRunV1, kaStatesV1, ho]
      constructor
      · intro _
        exact ⟨s1, by simp, (kaTickV1_failed ho).2⟩
      · intro _
        exact ⟨s1, rfl⟩
    | next s1 =>
      simp only [kaRunV1, kaStatesV1, ho]
      constructor
      · intro hl
        obtain ⟨s', hs', hb⟩ := (ih s1).mp hl
        exact ⟨s', List.mem_cons_of_mem _ hs', hb⟩
      · rintro ⟨s', hs', hb⟩
        rcases List.mem_cons.mp hs' with rfl | hmem
        · rcases kaTickV1_next ho with h0 | ⟨-, hlt⟩
          · rw [h0] at hb
            exact absurd hb (by simp [maxConsecutiveErrors])
          · omega
        · exact (ih s1).mpr ⟨s', hmem, hb⟩

/-! ## C2 -/

/-- C2: in the part_001 keep-alive loop, a tick that reaches the status
read with previous status `CONNECTED` and a fresh read of `UNKNOWN`
captures diagnostics and a screenshot, waits the grace interval, and
re-reads; when the re-read recovers to `CONNECTED` the transition is
discarded — the loop continues with `lastWsStatus = CONNECTED` and the
reconnect action is never invoked in that tick.  (The hypotheses say the
tick is reached: no shutdown at the loop head and no health-check
throw.) -/
theorem glitch_recovery_no_reconnect (s : KAState) (env : KATickEnv)
    (hsd : env.shutdownAtTop = false)
    (hht : healthThrows s env = false)
    (hlast : s.lastWsStatus = "CONNECTED")
    (hcur : env.wsStatus = "UNKNOWN")
    (hre : env.glitchRecheck = "CONNECTED") :
    ∃ s' evs, kaTickV2 s env = (.next s', evs)
      ∧ s'.lastWsStatus = "CONNECTED"
      ∧ s'.consecutiveErrors = s.consecutiveErrors
      ∧ KAEvent.reconnectInvoked ∉ evs
      ∧ KAEvent.graceWaited ∈ evs
      ∧ KAEvent.screenshotSaved ∈ evs := by
  obtain ⟨s1, evs1, hstep, hl1, hcc1, hce1, hevs1⟩ := kaHealthStep_no_throw hht
  unfold kaTickV2 kaTryBodyV2
  rw [hsd]
  simp only [Bool.false_eq_true, if_false]
  rw [hstep]
  unfold kaAfterHealthV2 kaStatusCheckV2
  simp only [hl1, hlast, hcur, hre]
  have hbne : (("UNKNOWN" : String) != "CONNECTED") = true := by decide
  simp only [hbne, beq_self_eq_true, Bool.and_self, eq_self_iff_true, if_true]
  refine ⟨_, _, rfl, rfl, hce1, ?_, ?_, ?_⟩
  · rcases hevs1 with rfl | rfl | rfl <;>
      by_cases h60 : (s1.clickCounter + 1) % 60 = 0 <;>
        simp [h60]
  · rcases hevs1 with rfl | rfl | rfl <;>
      by_cases h60 : (s1.clickCounter + 1) % 60 = 0 <;>
        simp [h60]
  · rcases hevs1 with rfl | rfl | rfl <;>
      by_cases h60 : (s1.clickCounter + 1) % 60 = 0 <;>
        simp [h60]

/-- The loop state and iteration environment of the C2 witness: a fresh
`Active` loop whose previous status is `CONNECTED`, one transient
`UNKNOWN` read, recovery on the re-read. -/
def kaGlitchEnv : KATickEnv :=
  { shutdownAtTop := false
    health := true
    wsStatus := "UNKNOWN"
    glitchRecheck := "CONNECTED"
    postReconnectStatus := "UNKNOWN"
    shutdownDuringWait := false }

theorem glitch_recovery_no_reconnect_witness :
    healthThrows (initKAState "CONNECTED") kaGlitchEnv = false
    ∧ ∃ s' evs, kaTickV2 (initKAState "CONNECTED") kaGlitchEnv = (.next s', evs)
      ∧ s'.lastWsStatus = "CONNECTED"
      ∧ s'.consecutiveErrors = (initKAState "CONNECTED").consecutiveErrors
      ∧ KAEvent.reconnectInvoked ∉ evs
      ∧ KAEvent.graceWaited ∈ evs
      ∧ KAEvent.screenshotSaved ∈ evs :=
  ⟨rfl, glitch_recovery_no_reconnect (initKAState "CONNECTED") kaGlitchEnv
    rfl rfl rfl rfl rfl⟩

/-! ## C3 -/

/-- C3, amended: exhausting a reconnect cycle never terminates the
session.  (i) When no poll inside any attempt's connect-wait window
observes `CONNECTED`, `reconnectWs` runs all 3 attempts, logs the final
observed status (`第 3 次重连超时，当前状态: …`), logs the exhaustion,
and returns the constant `'UNKNOWN'` without throwing.  (ii) A keep-alive
tick of `lib/keepAlive.js` whose status read changed away from
`'CONNECTED'` invokes the reconnect, logs the post-reconnect re-read, and
then continues the loop — with `lastWsStatus` set to the status that
triggered the reconnect (`lastWsStatus = currentWsStatus` overwrites the
logged re-read), not to the final observed status. -/
theorem reconnect_exhaustion_nonfatal :
    (∀ envs : Nat → ReconnectAttemptEnv,
      (∀ a, 1 ≤ a → a ≤ reconnectMaxRetries → waitForWsConnected (envs a).polls = false) →
      (reconnectWs envs).1 = "UNKNOWN"
      ∧ ReconnectEvent.exhaustedLogged ∈ (reconnectWs envs).2
      ∧ ReconnectEvent.timeoutLogged reconnectMaxRetries
          (envs reconnectMaxRetries).statusAfterWait ∈ (reconnectWs envs).2)
    ∧ (∀ (s : KAState) (env : KATickEnv),
      env.shutdownAtTop = false →
      healthThrows s env = false →
      env.shutdownDuringWait = false →
      (env.wsStatus != s.lastWsStatus) = true →
      (env.wsStatus != "CONNECTED") = true →
      ∃ s' evs, kaTickV1 s env = (.next s', evs)
        ∧ s'.lastWsStatus = env.wsStatus
        ∧ KAEvent.reconnectInvoked ∈ evs
        ∧ KAEvent.postReconnectLogged env.postReconnectStatus ∈ evs) := by
  constructor
  · intro envs hp
    have h1 := hp 1 (by omega) (by decide)
    have h2 := hp 2 (by omega) (by decide)
    have h3 := hp 3 (by omega) (by decide)
    rcases hd1 : (envs 1).disconnectClicked <;> rcases hc1 : (envs 1).connectClicked <;>
      rcases hd2 : (envs 2).disconnectClicked <;> rcases hc2 : (envs 2).connectClicked <;>
      rcases hd3 : (envs 3).disconnectClicked <;> rcases hc3 : (envs 3).connectClicked <;>
        simp [reconnectWs, reconnectMaxRetries, reconnectFrom, reconnectAttempt,
          h1, h2, h3, hd1, hc1, hd2, hc2, hd3, hc3]
  · intro s env hsd hht hsw hchg hnc
    obtain ⟨s1, evs1, hstep, hl1, hcc1, hce1, hevs1⟩ := kaHealthStep_no_throw hht
    obtain ⟨s', evs', htail, hlast', hcerr', hsup⟩ :=
      kaTickTail_next { s1 with clickCounter := s1.clickCounter + 1, lastWsStatus := env.wsStatus }
        (evs1 ++ [KAEvent.modalDismissed, KAEvent.keepAliveClick]
          ++ [KAEvent.reconnectInvoked, KAEvent.postReconnectLogged env.postReconnectStatus])
        env hsw
    have hbody : kaTryBodyV1 s env = kaAfterHealthV1 s1 env evs1 := by
      unfold kaTryBodyV1
      rw [hstep]
    have hbranch : kaAfterHealthV1 s1 env evs1 = (Except.ok (some s'), evs') := by
      unfold kaAfterHealthV1
      rw [hl1, if_pos hchg, if_pos hnc, htail]
    unfold kaTickV1
    rw [hsd]
    simp only [Bool.false_eq_true, if_false]
    rw [hbody, hbranch]
    refine ⟨s', evs', rfl, by rw [hlast'], ?_, ?_⟩
    · exact hsup _ (by simp)
    · exact hsup _ (by simp)

/-- The loop state of the C3 counterexample and witness: an `Active` loop
whose previous status is `CONNECTED`. -/
def kaCexState : KAState := initKAState "CONNECTED"

/-- The iteration environment of the C3 counterexample and witness: the
fresh read is `IDLE` (triggering a reconnect), and the post-reconnect
re-read — the final observed status of the tick — is `UNKNOWN`. -/
def kaCexEnv : KATickEnv :=
  { shutdownAtTop := false
    health := true
    wsStatus := "IDLE"
    glitchRecheck := "UNKNOWN"
    postReconnectStatus := "UNKNOWN"
    shutdownDuringWait := false }

/-- C3, counterexample to the claim as stated: in this tick the reconnect
cycle's final observed status — the post-reconnect re-read, logged as
`重连后 WS 状态: UNKNOWN` — is `'UNKNOWN'`, yet the loop returns to
`Active` holding `lastWsStatus = 'IDLE'` (the status that triggered the
reconnect), because `lastWsStatus = currentWsStatus` overwrites the
re-read; so the session does not return to `Active` with the final
observed status. -/
theorem reconnect_status_not_adopted :
    kaTickV1 kaCexState kaCexEnv =
      (.next { initKAState "IDLE" with clickCounter := 1 },
       [KAEvent.modalDismissed, KAEvent.keepAliveClick, KAEvent.reconnectInvoked,
        KAEvent.postReconnectLogged "UNKNOWN"])
    ∧ KAEvent.postReconnectLogged "UNKNOWN" ∈ (kaTickV1 kaCexState kaCexEnv).2
    ∧ (kaTickV1 kaCexState kaCexEnv).1
        ≠ KATickOutcome.next { initKAState "UNKNOWN" with clickCounter := 1 } := by
  refine ⟨rfl, by decide, by decide⟩

/-- The per-attempt driver environment of the C3 witness: clicks succeed
but the connection never reaches `CONNECTED`. -/
def reconnectEnvsW : Nat → ReconnectAttemptEnv :=
  fun _ =>
    { disconnectClicked := true
      statusAfterDisconnect := "IDLE"
      connectClicked := true
      polls := ["CONNECTING", "IDLE"]
      statusAfterWait := "IDLE" }

theorem reconnect_exhaustion_nonfatal_witness :
    ((reconnectWs reconnectEnvsW).1 = "UNKNOWN"
      ∧ ReconnectEvent.exhaustedLogged ∈ (reconnectWs reconnectEnvsW).2
      ∧ ReconnectEvent.timeoutLogged reconnectMaxRetries
          (reconnectEnvsW reconnectMaxRetries).statusAfterWait ∈ (reconnectWs reconnectEnvsW).2)
    ∧ (∃ s' evs, kaTickV1 kaCexState kaCexEnv = (.next s', evs)
        ∧ s'.lastWsStatus = kaCexEnv.wsStatus
        ∧ KAEvent.reconnectInvoked ∈ evs
        ∧ KAEvent.postReconnectLogged kaCexEnv.postReconnectStatus ∈ evs) :=
  ⟨reconnect_exhaustion_nonfatal.1 reconnectEnvsW
      (fun a h1 h2 => by
        have h3 : a ≤ 3 := h2
        interval_cases a <;> rfl),
    reconnect_exhaustion_nonfatal.2 kaCexState kaCexEnv rfl rfl rfl (by decide) (by decide)⟩
